import Mathlib

/-!
Verification of the two-layer policy evaluation engine (Go + Postgres + CEL).

The definitions below are a shallow embedding of the repository's source:
  * `internal/eval/engine.go`   — decision procedure, resource matching,
    specificity, candidate loading, policy evaluation, audit;
  * `internal/policy/validate.go` — write-time CEL validation environment;
  * `internal/httpapi/policies.go` — the PUT update handler's field handling.

External dependencies (cel-go, gobwas/glob, GORM) are modelled by small
executable fragments that are faithful on the inputs exercised by the
repository, as documented on each definition.
-/

namespace PolicyEngine

/-- Dynamic values flowing through predicate evaluation: the CEL fragment used
by this engine binds strings and string-keyed dynamic maps (see the variable
declarations in `NewEvalEngine`). -/
inductive Value where
  | str (s : String)
  | bool (b : Bool)
  | vmap (entries : List (String × Value))

/-- CEL types occurring in the engine's declared environment:
`decls.String`, `decls.Bool`, `decls.NewMapType(decls.String, decls.Dyn)`,
and `Dyn` (the result of selecting a member out of a dynamic map). -/
inductive CelType where
  | str
  | bool
  | mapSD
  | dyn
deriving DecidableEq

/-- The fragment of CEL expression ASTs needed for the policies exercised
here: boolean and string literals, variable references, and member selection
on dynamic maps. Models the parsed AST produced by `env.Parse`. -/
inductive CelExpr where
  | litBool (b : Bool)
  | litStr (s : String)
  | varRef (n : String)
  | member (e : CelExpr) (field : String)
deriving DecidableEq

/-- Type checking of the CEL fragment against a declared environment, modelling
`env.Check`: a variable reference resolves against the declarations (failure is
the "undeclared reference" compile error), and member selection requires a map
or dynamic operand (selection on a string is the "does not support field
selection" compile error). -/
def typecheck (env : List (String × CelType)) : CelExpr → Option CelType
  | .litBool _ => some .bool
  | .litStr _ => some .str
  | .varRef n => env.lookup n
  | .member e _ =>
    match typecheck env e with
    | some .mapSD => some .dyn
    | some .dyn => some .dyn
    | _ => none

/-- The evaluation engine's declared environment from `NewEvalEngine` in
`internal/eval/engine.go`: exactly seven request-bound constants. -/
def engineEnv : List (String × CelType) :=
  [("subject", .mapSD), ("resource", .str), ("action", .str), ("metadata", .mapSD),
   ("protocol", .str), ("platform", .str), ("cloud", .str)]

/-- The write-time validation environment from `ValidateCEL` in
`internal/policy/validate.go`: the same seven declarations plus an extra
`request` variable (declared as a map from string to dyn). -/
def validationEnv : List (String × CelType) :=
  engineEnv ++ [("request", .mapSD)]

/-- Whether an expression compiles under the engine's evaluation environment
(`compileOrGet`: parse, check, program succeed). -/
def engineCompiles (e : CelExpr) : Bool :=
  (typecheck engineEnv e).isSome

/-- Whether an expression passes write-time validation (`ValidateCEL`:
parse, check, program under the validation environment succeed). The empty
string is rejected before parsing in the source; at the AST level every
expression considered is a successfully parsed, non-empty one. -/
def ValidateCEL (e : CelExpr) : Bool :=
  (typecheck validationEnv e).isSome

/-- The evaluation request (`eval.Request`): subject/metadata are dynamic
maps, the remaining fields strings. -/
structure Request where
  subject : List (String × Value)
  resource : String
  action : String
  metadata : List (String × Value)
  protocol : String
  platform : String
  cloud : String

/-- The bindings passed to `prog.Eval` in `evaluatePolicy`: each declared
variable is bound from the request. -/
def bindVar (req : Request) : String → Option Value
  | "subject" => some (.vmap req.subject)
  | "resource" => some (.str req.resource)
  | "action" => some (.str req.action)
  | "metadata" => some (.vmap req.metadata)
  | "protocol" => some (.str req.protocol)
  | "platform" => some (.str req.platform)
  | "cloud" => some (.str req.cloud)
  | _ => none

/-- Runtime evaluation of the CEL fragment, modelling `prog.Eval`: member
selection on a dynamic map raises "no such key" when the key is absent and
"no such overload" on a non-map operand; these are the runtime errors the
engine routes through its fail-closed policy. -/
def evalCel (req : Request) : CelExpr → Except String Value
  | .litBool b => .ok (.bool b)
  | .litStr s => .ok (.str s)
  | .varRef n =>
    match bindVar req n with
    | some v => .ok v
    | none => .error ("undeclared reference: " ++ n)
  | .member e f =>
    match evalCel req e with
    | .error msg => .error msg
    | .ok (.vmap m) =>
      match m.lookup f with
      | some v => .ok v
      | none => .error ("no such key: " ++ f)
    | .ok _ => .error ("no such overload: member " ++ f)

/-- Discriminates the boolean results of predicate evaluation from the
non-boolean ones (the engine's `out.Value().(bool)` type assertion). -/
def isBoolValue : Value → Bool
  | .bool _ => true
  | _ => false

/-- The policy record (`model.Policy`). Timestamps are modelled as naturals
with their total order (`time.Time.Before`/`Equal`); the identifier is the
textual UUID (the sort compares `ID.String()` lexicographically, and UTF-8
byte order agrees with code-point order). `condition` mirrors the unused
`Condition datatypes.JSON` column; `expr` is the parsed CEL expression. -/
structure Policy where
  id : String
  name : String
  effect : String
  provider : String
  resource : String
  actions : List String
  condition : List (String × Value)
  expr : CelExpr
  metadata : List (String × Value)
  enabled : Bool
  priority : Int
  version : Int
  createdAt : Nat
  updatedAt : Nat

/-- One trace entry (`eval.TraceItem`). The Go struct's zero values for
absent `reason`/`error` are the empty string. -/
structure TraceItem where
  policyId : String
  result : Option Bool
  effect : String
  reason : String
  error : String
deriving DecidableEq

/-- The 5-tuple returned by `evaluatePolicy`. -/
structure PolicyEval where
  result : String
  matched : Option String
  reason : String
  trace : List TraceItem
  err : Option String
deriving DecidableEq

/-- The 5-tuple returned by `evaluate` (decision, matched, reason, trace,
error). -/
structure Decision where
  decision : String
  matched : Option String
  reason : String
  trace : List TraceItem
  err : Option String
deriving DecidableEq

/-- Reason synthesis `policyMessageOrDefault`: metadata key "message", when
present as a non-empty string, overrides the default. The source unmarshals
the JSONB column; metadata is modelled as the parsed object. -/
def policyMessageOrDefault (p : Policy) (defaultMsg : String) : String :=
  match p.metadata.lookup "message" with
  | some (.str v) => if v ≠ "" then v else defaultMsg
  | _ => defaultMsg

/-- Reason synthesis `policyNonMatchReason` for predicates that returned
false: metadata key "non_match_message" or the literal "conditions not met". -/
def policyNonMatchReason (p : Policy) : String :=
  match p.metadata.lookup "non_match_message" with
  | some (.str v) => if v ≠ "" then v else "conditions not met"
  | _ => "conditions not met"

/-- The compile-error message produced by `compileOrGet` (the cel-go issue
text; its exact content is opaque, only its presence matters). -/
def compileErrMsg : String := "undeclared reference or type error"

/-- Models `compileOrGet`: compile the policy's expression under the engine
environment. The `sync.Map` program cache is identity-keyed memoization of
this pure function and is elided. -/
def compileOrGet (p : Policy) : Except String CelExpr :=
  if engineCompiles p.expr then .ok p.expr else .error compileErrMsg

/-- Models `evaluatePolicy` from `internal/eval/engine.go` line by line:
compile (fail-closed deny / fail-open allow on error), evaluate (same),
boolean check (same), then the effect dispatch: a true deny or allow returns
that result with a trace entry; a true result under any other effect falls
through both branches and returns the empty result with no trace entry; a
false result returns the empty result with a non-match trace entry. -/
def evaluatePolicy (failClosed : Bool) (p : Policy) (req : Request) : PolicyEval :=
  match compileOrGet p with
  | .error msg =>
    let tr := [{ policyId := p.id, result := none, effect := p.effect,
                 reason := "policy expression failed to compile", error := "compile: " ++ msg }]
    if failClosed then
      { result := "deny", matched := some p.id,
        reason := "Access denied by policy \x27" ++ p.name ++ "\x27: expression failed to compile",
        trace := tr, err := none }
    else
      { result := "allow", matched := none,
        reason := "expression failed to compile (fail-open)", trace := tr, err := some msg }
  | .ok prog =>
    match evalCel req prog with
    | .error msg =>
      let tr := [{ policyId := p.id, result := none, effect := p.effect,
                   reason := "policy evaluation runtime error", error := "runtime: " ++ msg }]
      if failClosed then
        { result := "deny", matched := some p.id,
          reason := "Access denied by policy \x27" ++ p.name ++ "\x27: runtime error during evaluation",
          trace := tr, err := none }
      else
        { result := "allow", matched := none,
          reason := "runtime error (fail-open)", trace := tr, err := some msg }
    | .ok v =>
      match v with
      | .bool b =>
        if b then
          if p.effect = "deny" then
            let r := policyMessageOrDefault p ("Access denied by policy \x27" ++ p.name ++ "\x27")
            { result := "deny", matched := some p.id, reason := r,
              trace := [{ policyId := p.id, result := some true, effect := p.effect,
                          reason := r, error := "" }],
              err := none }
          else if p.effect = "allow" then
            let r := policyMessageOrDefault p ("Access allowed by policy \x27" ++ p.name ++ "\x27")
            { result := "allow", matched := some p.id, reason := r,
              trace := [{ policyId := p.id, result := some true, effect := p.effect,
                          reason := r, error := "" }],
              err := none }
          else
            { result := "", matched := none, reason := "", trace := [], err := none }
        else
          { result := "", matched := none, reason := "",
            trace := [{ policyId := p.id, result := some false, effect := p.effect,
                        reason := policyNonMatchReason p, error := "" }],
            err := none }
      | _ =>
        let tr := [{ policyId := p.id, result := none, effect := p.effect,
                     reason := "policy expression did not return boolean", error := "non-boolean result" }]
        if failClosed then
          { result := "deny", matched := some p.id,
            reason := "Access denied by policy \x27" ++ p.name ++ "\x27: expression did not return true/false",
            trace := tr, err := none }
        else
          { result := "allow", matched := none,
            reason := "non-boolean result (fail-open)", trace := tr, err := none }

/-- Well-formedness of a glob pattern in the modelled fragment of gobwas/glob:
patterns built from literal characters and the wildcards `*` and `?`.
Character-class, alternate and escape syntax is outside the fragment and
conservatively treated as not compiling; in particular the malformed pattern
`[` (unclosed class) fails to compile, exactly where the library's
`glob.MustCompile` panics. -/
def globWellFormed (pattern : String) : Bool :=
  pattern.toList.all (fun c => c ≠ '[' && c ≠ '{' && c ≠ '\\')

/-- Matching loop for a `*` wildcard: try the rest of the pattern against
every suffix of the remaining input. -/
def starLoop (f : List Char → Bool) : List Char → Bool
  | [] => f []
  | c :: s => f (c :: s) || starLoop f s

/-- Glob matching on character lists: `*` matches any (possibly empty)
sequence, `?` exactly one character, anything else itself. `MustCompile` is
called without separators, so `*` crosses `/` — as in the library. -/
def globMatchL : List Char → List Char → Bool
  | [], s => s.isEmpty
  | c :: ps, s =>
    if c = '*' then starLoop (globMatchL ps) s
    else
      match s with
      | [] => false
      | c2 :: s2 => (c = '?' || c = c2) && globMatchL ps s2

/-- Glob matching on strings. -/
def globMatch (pattern value : String) : Bool :=
  globMatchL pattern.toList value.toList

/-- Models `resourceMatch`: empty pattern and `*` match everything without
compiling; otherwise the pattern is compiled (memoized in a pattern-keyed
cache, elided as memoization of a pure function) and matched. A pattern that
fails to compile makes `glob.MustCompile` panic: modelled as `none`. -/
def resourceMatch (pattern value : String) : Option Bool :=
  if pattern = "" ∨ pattern = "*" then some true
  else if globWellFormed pattern then some (globMatch pattern value)
  else none

/-- The patterns on which `resourceMatch` cannot panic: the two shortcut
patterns, or a pattern that compiles. -/
def globPatternOk (pattern : String) : Bool :=
  pattern == "" || pattern == "*" || globWellFormed pattern

/-- Models `computeSpecificity`: `len(pattern)` (UTF-8 bytes in Go) minus ten
per wildcard rune (`*` or `?`). -/
def computeSpecificity (pattern : String) : Int :=
  if pattern = "" then 0
  else (pattern.utf8ByteSize : Int)
    - 10 * ((pattern.toList.filter (fun c => c = '*' || c = '?')).length : Int)

/-- The policy store visible to the engine: the persisted policies plus
fault injection for the `Find` call (`loadErr provider` is the error the
database returns when listing that provider scope, `none` for success). -/
structure DB where
  policies : List Policy
  loadErr : String → Option String

/-- The engine (`eval.EvalEngine`): store handle and the fail-closed flag.
The CEL environment and program cache are elided as described on
`compileOrGet`. -/
structure EvalEngine where
  db : DB
  failClosed : Bool

/-- Models `loadPolicies`: `enabled = true AND provider = ?`, and when the
action is non-empty, `? = ANY(actions) OR array_length(actions,1) IS NULL`
(in Postgres an empty array has NULL length, so the clause holds when the
action is listed or the actions array is empty). -/
def loadPolicies (db : DB) (provider action : String) : Except String (List Policy) :=
  match db.loadErr provider with
  | some msg => .error msg
  | none => .ok (db.policies.filter (fun p =>
      p.enabled && p.provider == provider
        && (action == "" || p.actions.contains action || p.actions.isEmpty)))

/-- Outcome of the global-policy loop in `evaluate`: either an early return
with a full decision, or fall-through with the accumulated trace. -/
inductive GlobalStep where
  | done (d : Decision)
  | next (trace : List TraceItem)
deriving DecidableEq

/-- The global-layer loop of `evaluate` (lines 102–113): for each global
policy in store order — the source does not sort this layer — match the
resource (a malformed pattern panics: `none`), evaluate the policy, append
its trace, and return early on a non-nil error or a deny result. -/
def globalLoop (failClosed : Bool) (req : Request) :
    List Policy → List TraceItem → Option GlobalStep
  | [], tr => some (.next tr)
  | p :: rest, tr =>
    match resourceMatch p.resource req.resource with
    | none => none
    | some false => globalLoop failClosed req rest tr
    | some true =>
      let r := evaluatePolicy failClosed p req
      let tr2 := tr ++ r.trace
      if r.err.isSome then
        some (.done { decision := r.result, matched := r.matched, reason := r.reason,
                      trace := tr2, err := r.err })
      else if r.result = "deny" then
        some (.done { decision := "deny", matched := r.matched, reason := r.reason,
                      trace := tr2, err := none })
      else globalLoop failClosed req rest tr2

/-- The provider-layer candidate collection of `evaluate` (lines 131–140):
retain resource-matching policies, pairing each with its specificity; a
malformed pattern panics (`none`). -/
def collectCands (req : Request) : List Policy → Option (List (Policy × Int))
  | [] => some []
  | p :: rest =>
    match resourceMatch p.resource req.resource with
    | none => none
    | some true => (collectCands req rest).map (fun l => (p, computeSpecificity p.resource) :: l)
    | some false => collectCands req rest

/-- The comparator passed to `sort.Slice` (lines 142–153): priority
ascending, specificity descending, created_at ascending, then the textual
identifier ascending. -/
def candLess (a b : Policy × Int) : Bool :=
  if a.1.priority ≠ b.1.priority then decide (a.1.priority < b.1.priority)
  else if a.2 ≠ b.2 then decide (a.2 > b.2)
  else if a.1.createdAt ≠ b.1.createdAt then decide (a.1.createdAt < b.1.createdAt)
  else decide (a.1.id < b.1.id)

/-- Insertion of one candidate into a `candLess`-sorted list. -/
def insertCand (c : Policy × Int) : List (Policy × Int) → List (Policy × Int)
  | [] => [c]
  | d :: rest => if candLess c d then c :: d :: rest else d :: insertCand c rest

/-- Models `sort.Slice` with the comparator above. `sort.Slice` is an
unstable comparison sort; on candidate lists whose policies have pairwise
distinct identifiers the comparator is a strict total order, so every
comparison sort produces the same list — insertion sort is used here. -/
def sortCands (l : List (Policy × Int)) : List (Policy × Int) :=
  l.foldr insertCand []

/-- The provider-layer evaluation loop of `evaluate` (lines 155–175):
evaluate each sorted candidate; return early on a non-nil error or a deny;
a true allow overwrites `allowWinner` and the loop continues; afterwards,
the winner (if any) yields allow, else the default deny. -/
def providerLoop (failClosed : Bool) (req : Request) :
    List (Policy × Int) → List TraceItem → Option Policy → Decision
  | [], tr, none =>
    { decision := "deny", matched := none,
      reason := "Access denied: no allow policy matched for action \x27" ++ req.action
        ++ "\x27 on resource \x27" ++ req.resource ++ "\x27",
      trace := tr, err := none }
  | [], tr, some w =>
    { decision := "allow", matched := some w.id,
      reason := policyMessageOrDefault w ("Access allowed by policy \x27" ++ w.name ++ "\x27"),
      trace := tr, err := none }
  | c :: rest, tr, winner =>
    let r := evaluatePolicy failClosed c.1 req
    let tr2 := tr ++ r.trace
    if r.err.isSome then
      { decision := r.result, matched := r.matched, reason := r.reason, trace := tr2, err := r.err }
    else if r.result = "deny" then
      { decision := "deny", matched := r.matched, reason := r.reason, trace := tr2, err := none }
    else if r.result = "allow" then providerLoop failClosed req rest tr2 (some c.1)
    else providerLoop failClosed req rest tr2 winner

/-- Provider determination (lines 116–119): start from `req.cloud`; when it
is empty or the literal "none", fall back to `req.protocol`. -/
def determineProvider (req : Request) : String :=
  let provider := req.cloud
  if provider = "" ∨ provider = "none" then req.protocol else provider

/-- Models `evaluate`: global layer (store error through the fail-closed
policy, then the unsorted global loop), provider determination with the
no-provider deny, provider layer (store error, candidate collection, sort,
evaluation loop). `none` models a panic escaping the procedure. -/
def evaluate (e : EvalEngine) (req : Request) : Option Decision :=
  match loadPolicies e.db "global" req.action with
  | .error msg =>
    if e.failClosed then
      some { decision := "deny", matched := none, reason := "database error: " ++ msg,
             trace := [], err := some msg }
    else
      some { decision := "allow", matched := none, reason := "database error (fail-open)",
             trace := [], err := some msg }
  | .ok globalPolicies =>
    match globalLoop e.failClosed req globalPolicies [] with
    | none => none
    | some (.done d) => some d
    | some (.next tr) =>
      if determineProvider req = "" then
        some { decision := "deny", matched := none,
               reason := "Access denied: no provider specified", trace := tr, err := none }
      else
        match loadPolicies e.db (determineProvider req) req.action with
        | .error msg =>
          if e.failClosed then
            some { decision := "deny", matched := none, reason := "database error: " ++ msg,
                   trace := tr, err := some msg }
          else
            some { decision := "allow", matched := none, reason := "database error (fail-open)",
                   trace := tr, err := some msg }
        | .ok providerPolicies =>
          match collectCands req providerPolicies with
          | none => none
          | some cands => some (providerLoop e.failClosed req (sortCands cands) tr none)

/-- One audit row (`model.PolicyAudit`): the source stores the JSON
marshalling of the request and trace; the record holds them directly. -/
structure AuditRecord where
  request : Request
  decision : String
  matchedId : Option String
  trace : List TraceItem

/-- Models `persistAudit`: build the audit record submitted to the store. -/
def persistAudit (req : Request) (decision : String) (matched : Option String)
    (trace : List TraceItem) : AuditRecord :=
  { request := req, decision := decision, matchedId := matched, trace := trace }

/-- Models `EvaluateAndAudit`: compute the decision, submit exactly one audit
record, and return the decision. `auditOk` is the audit insert's success;
its error is produced but discarded (`_ = e.persistAudit(...)` in the
source), returned here as the third component to show it is swallowed. -/
def EvaluateAndAudit (e : EvalEngine) (auditOk : Bool) (req : Request) :
    Option (Decision × List AuditRecord × Option String) :=
  match evaluate e req with
  | none => none
  | some d =>
    some (d, [persistAudit req d.decision d.matched d.trace],
          if auditOk then none else some "audit insert failed")

/-- Models the PUT `/policies/{id}` handler's persistence step
(`internal/httpapi/policies.go`): the columns in the `Select` list — name,
effect, provider, resource, actions, expr, metadata, enabled, priority,
version — take the incoming body's values; the identifier, created_at and
the condition column are not in the list and keep the stored values (the
handler additionally copies the stored id and created_at into the incoming
struct first); GORM refreshes updated_at on the update. -/
def updatePolicy (existing incoming : Policy) (now : Nat) : Policy :=
  { id := existing.id
    name := incoming.name
    effect := incoming.effect
    provider := incoming.provider
    resource := incoming.resource
    actions := incoming.actions
    condition := existing.condition
    expr := incoming.expr
    metadata := incoming.metadata
    enabled := incoming.enabled
    priority := incoming.priority
    version := incoming.version
    createdAt := existing.createdAt
    updatedAt := now }

/-! Concrete policies, requests and engines used to exercise the embedding. -/

/-- An enabled policy with empty actions, condition and metadata. -/
def mkPolicy (id name effect provider resource : String) (priority : Int)
    (createdAt : Nat) (expr : CelExpr) : Policy :=
  { id := id, name := name, effect := effect, provider := provider, resource := resource,
    actions := [], condition := [], expr := expr, metadata := [], enabled := true,
    priority := priority, version := 1, createdAt := createdAt, updatedAt := createdAt }

/-- A request with empty subject and metadata. -/
def mkRequest (resource action protocol cloud : String) : Request :=
  { subject := [], resource := resource, action := action, metadata := [],
    protocol := protocol, platform := "", cloud := cloud }

/-- A store whose load calls never fail. -/
def noErrDB (ps : List Policy) : DB := { policies := ps, loadErr := fun _ => none }

def c1PolicyA : Policy := mkPolicy "pol-a" "A" "allow" "aws" "aws:s3:bucket/*" 100 1 (.litBool true)

def c1PolicyB : Policy := mkPolicy "pol-b" "B" "allow" "aws" "aws:s3:bucket/b/*" 100 1 (.litBool true)

def c1Engine : EvalEngine := { db := noErrDB [c1PolicyA, c1PolicyB], failClosed := true }

def c1Req : Request := mkRequest "aws:s3:bucket/b/x" "s3:GetObject" "" "aws"

def c2PolicyG1 : Policy := mkPolicy "g1" "G1" "deny" "global" "*" 10 1 (.litBool true)

def c2PolicyG2 : Policy := mkPolicy "g2" "G2" "deny" "global" "*" 100 2 (.litBool true)

def c2Engine : EvalEngine := { db := noErrDB [c2PolicyG2, c2PolicyG1], failClosed := true }

def c2Req : Request := mkRequest "res" "act" "" "aws"

def c3Policy : Policy := mkPolicy "pa" "PA" "allow" "aws" "*" 100 1 (.litBool true)

def c3Engine : EvalEngine := { db := noErrDB [c3Policy], failClosed := true }

def c3Req : Request := mkRequest "aws:s3:bucket/b/x" "s3:GetObject" "" "aws"

def c3Decision : Decision :=
  { decision := "allow", matched := some "pa",
    reason := "Access allowed by policy \x27PA\x27",
    trace := [{ policyId := "pa", result := some true, effect := "allow",
                reason := "Access allowed by policy \x27PA\x27", error := "" }],
    err := none }

def c4Policy1 : Policy := mkPolicy "p1" "P1" "allow" "aws" "*" 1 1 (.varRef "request")

def c4Policy2 : Policy := mkPolicy "p2" "P2" "deny" "aws" "*" 2 2 (.litBool true)

def c4Engine : EvalEngine := { db := noErrDB [c4Policy1, c4Policy2], failClosed := false }

def c4Req : Request := mkRequest "r" "a" "" "aws"

def c4RuntimePolicy : Policy :=
  mkPolicy "pr" "PR" "allow" "aws" "*" 1 1 (.member (.varRef "subject") "role")

def c4NonBoolPolicy : Policy := mkPolicy "pn" "PN" "allow" "aws" "*" 1 1 (.varRef "resource")

def c5Policy : Policy := mkPolicy "m1" "M" "allow" "aws" "[" 100 1 (.litBool true)

def c5Engine : EvalEngine := { db := noErrDB [c5Policy], failClosed := true }

def c5Req : Request := mkRequest "r" "a" "" "aws"

def c5OkEngine : EvalEngine := { db := noErrDB [c3Policy, c2PolicyG1], failClosed := true }

def c7Engine : EvalEngine := { db := noErrDB [], failClosed := true }

def c7Req : Request := mkRequest "r" "a" "" "none"

def c8Existing : Policy :=
  { id := "pid", name := "N", effect := "allow", provider := "aws", resource := "*",
    actions := [], condition := [], expr := .litBool true, metadata := [],
    enabled := true, priority := 100, version := 5, createdAt := 1, updatedAt := 1 }

def c8Incoming : Policy := { c8Existing with name := "N2", priority := 7, version := 5 }

def c9Engine : EvalEngine := { db := noErrDB [], failClosed := true }

def c9Req : Request := mkRequest "r" "a" "ssh" ""

def c9Decision : Decision :=
  { decision := "deny", matched := none,
    reason := "Access denied: no allow policy matched for action \x27a\x27 on resource \x27r\x27",
    trace := [], err := none }

def c10Policy : Policy := mkPolicy "px" "PX" "audit" "aws" "*" 100 1 (.litBool true)

def c10Req : Request := mkRequest "r" "a" "" "aws"

/-! Theorems. -/

/-- C1: the claim expects the matched policy of a multi-allow provider run to
be the FIRST true allow in the sorted order (here B, the more specific
pattern). In the code `allowWinner = &p` runs for every true allow, so the
LAST true allow wins: the sorted evaluation order is [B, A] (first conjunct)
yet the engine reports `matched = A`. The decision is still allow. -/
theorem c1_matched_is_last_allow_in_sorted_order :
    (sortCands [(c1PolicyA, computeSpecificity c1PolicyA.resource),
                (c1PolicyB, computeSpecificity c1PolicyB.resource)]).map (fun c => c.1.id)
      = ["pol-b", "pol-a"]
    ∧ evaluate c1Engine c1Req =
        some { decision := "allow", matched := some "pol-a",
               reason := "Access allowed by policy \x27A\x27",
               trace := [{ policyId := "pol-b", result := some true, effect := "allow",
                           reason := "Access allowed by policy \x27B\x27", error := "" },
                         { policyId := "pol-a", result := some true, effect := "allow",
                           reason := "Access allowed by policy \x27A\x27", error := "" }],
               err := none } :=
  ⟨rfl, rfl⟩

/-- C2: the claim says both layers sort their candidates. The provider layer
does, but the global layer evaluates in store order: with the store returning
[G2, G1] (priorities 100 and 10, both deny, both matching), the engine
matches G2, while the documented sort (first conjunct) would put G1 first. -/
theorem c2_global_layer_not_sorted :
    (sortCands [(c2PolicyG2, computeSpecificity c2PolicyG2.resource),
                (c2PolicyG1, computeSpecificity c2PolicyG1.resource)]).map (fun c => c.1.id)
      = ["g1", "g2"]
    ∧ evaluate c2Engine c2Req =
        some { decision := "deny", matched := some "g2",
               reason := "Access denied by policy \x27G2\x27",
               trace := [{ policyId := "g2", result := some true, effect := "deny",
                           reason := "Access denied by policy \x27G2\x27", error := "" }],
               err := none } :=
  ⟨rfl, rfl⟩

/-- C4 counterexample: with fail_closed = false, a compile error does NOT
skip the policy and continue. Candidates are [P1 (compile error), P2 (deny,
expr true)]; the claim predicts P1 is skipped and P2 denies, but the engine
terminates at P1 with decision allow and a single trace entry — P2 is never
evaluated. -/
theorem c4_counterexample :
    evaluate c4Engine c4Req =
      some { decision := "allow", matched := none,
             reason := "expression failed to compile (fail-open)",
             trace := [{ policyId := "p1", result := none, effect := "allow",
                         reason := "policy expression failed to compile",
                         error := "compile: " ++ compileErrMsg }],
             err := some compileErrMsg } :=
  rfl

/-- C5 counterexample: the decision procedure CAN raise. A stored aws policy
whose resource is the malformed glob `[` makes `glob.MustCompile` panic while
collecting provider candidates (modelled as `none`), so no deny/allow outcome
is produced. -/
theorem c5_counterexample : evaluate c5Engine c5Req = none :=
  rfl

/-- C6 counterexample: the write-time environment does not accept exactly the
expressions the engine compiles — the expression `request` passes
`ValidateCEL` (which declares an extra `request` variable) but fails to
compile under the engine's seven-variable environment. -/
theorem c6_counterexample :
    ValidateCEL (.varRef "request") = true ∧ engineCompiles (.varRef "request") = false :=
  ⟨rfl, rfl⟩

/-- C8 counterexample: update does not increment version. The PUT handler's
column list writes the incoming body's `version` verbatim: updating a
version-5 policy with an incoming version 5 leaves version 5, not 6. -/
theorem c8_counterexample :
    (updatePolicy c8Existing c8Incoming 10).version = 5
    ∧ ¬ (updatePolicy c8Existing c8Incoming 10).version = c8Existing.version + 1 :=
  ⟨rfl, by decide⟩

/-- C8 (amended): a successful update preserves identity, created_at and the
condition column, takes name, effect, provider, resource, actions, expr,
metadata, enabled, priority and version from the incoming body (version is
overwritten, not incremented), and refreshes updated_at. -/
theorem c8_update_preserves_identity_and_created_at (existing incoming : Policy) (now : Nat) :
    (updatePolicy existing incoming now).id = existing.id
    ∧ (updatePolicy existing incoming now).createdAt = existing.createdAt
    ∧ (updatePolicy existing incoming now).condition = existing.condition
    ∧ (updatePolicy existing incoming now).name = incoming.name
    ∧ (updatePolicy existing incoming now).effect = incoming.effect
    ∧ (updatePolicy existing incoming now).provider = incoming.provider
    ∧ (updatePolicy existing incoming now).resource = incoming.resource
    ∧ (updatePolicy existing incoming now).actions = incoming.actions
    ∧ (updatePolicy existing incoming now).expr = incoming.expr
    ∧ (updatePolicy existing incoming now).metadata = incoming.metadata
    ∧ (updatePolicy existing incoming now).enabled = incoming.enabled
    ∧ (updatePolicy existing incoming now).priority = incoming.priority
    ∧ (updatePolicy existing incoming now).version = incoming.version
    ∧ (updatePolicy existing incoming now).updatedAt = now :=
  ⟨rfl, rfl, rfl, rfl, rfl, rfl, rfl, rfl, rfl, rfl, rfl, rfl, rfl, rfl⟩

/-- C9: after the outcome is computed, exactly one audit record carrying the
request, decision, matched identity and full trace is submitted to the sink,
and the sink's success or failure (`auditOk`) leaves the returned decision
untouched — the write error is swallowed. -/
theorem c9_audit_exactly_once (e : EvalEngine) (auditOk : Bool) (req : Request) (d : Decision)
    (h : evaluate e req = some d) :
    EvaluateAndAudit e auditOk req =
      some (d, [{ request := req, decision := d.decision, matchedId := d.matched,
                  trace := d.trace }],
            if auditOk then none else some "audit insert failed") := by
  unfold EvaluateAndAudit persistAudit
  rw [h]

/-- Witness for C9 at a failing sink: the default-deny decision is returned
unchanged and the submitted record carries it. -/
theorem c9_witness :
    EvaluateAndAudit c9Engine false c9Req =
      some (c9Decision,
            [{ request := c9Req, decision := c9Decision.decision,
               matchedId := c9Decision.matched, trace := c9Decision.trace }],
            some "audit insert failed") :=
  c9_audit_exactly_once c9Engine false c9Req c9Decision rfl

/-- Under fail-closed, `evaluatePolicy` never reports a Go-level error, and
any outcome other than a deny carries only error-free trace entries (the
error branches all turn into deny results). -/
theorem evaluatePolicy_failClosed_spec (p : Policy) (req : Request) :
    (evaluatePolicy true p req).err = none
    ∧ ((evaluatePolicy true p req).result = "deny"
        ∨ ∀ t ∈ (evaluatePolicy true p req).trace, t.error = "") := by
  unfold evaluatePolicy
  repeat' split
  all_goals try exact absurd rfl (by assumption)
  all_goals simp

/-- Under fail-closed, an early return from the global loop is a deny. -/
theorem globalLoop_failClosed_done (req : Request) :
    ∀ (ps : List Policy) (tr : List TraceItem) (d : Decision),
      globalLoop true req ps tr = some (.done d) → d.decision = "deny" := by
  intro ps
  induction ps with
  | nil => intro tr d h; simp [globalLoop] at h
  | cons p rest ih =>
    intro tr d h
    unfold globalLoop at h
    cases hrm : resourceMatch p.resource req.resource with
    | none => rw [hrm] at h; simp at h
    | some b =>
      rw [hrm] at h
      cases b with
      | false => exact ih tr d h
      | true =>
        have herr := (evaluatePolicy_failClosed_spec p req).1
        simp only [herr, Option.isSome_none] at h
        by_cases hres : (evaluatePolicy true p req).result = "deny"
        · simp only [hres, if_pos, if_neg, Bool.false_eq_true, if_false] at h
          simp at h
          rw [← h]
        · simp only [Bool.false_eq_true, if_false, if_neg hres] at h
          exact ih _ d h

/-- Under fail-closed, a fall-through from the global loop only accumulates
error-free trace entries. -/
theorem globalLoop_failClosed_next (req : Request) :
    ∀ (ps : List Policy) (tr tr2 : List TraceItem),
      (∀ t ∈ tr, t.error = "") →
      globalLoop true req ps tr = some (.next tr2) →
      ∀ t ∈ tr2, t.error = "" := by
  intro ps
  induction ps with
  | nil =>
    intro tr tr2 htr h
    simp [globalLoop] at h
    subst h
    exact htr
  | cons p rest ih =>
    intro tr tr2 htr h
    unfold globalLoop at h
    cases hrm : resourceMatch p.resource req.resource with
    | none => rw [hrm] at h; simp at h
    | some b =>
      rw [hrm] at h
      cases b with
      | false => exact ih tr tr2 htr h
      | true =>
        have herr := (evaluatePolicy_failClosed_spec p req).1
        simp only [herr, Option.isSome_none] at h
        by_cases hres : (evaluatePolicy true p req).result = "deny"
        · simp [hres] at h
        · simp only [Bool.false_eq_true, if_false, if_neg hres] at h
          have htrace := (evaluatePolicy_failClosed_spec p req).2.resolve_left hres
          refine ih _ tr2 ?_ h
          intro t ht
          rcases List.mem_append.mp ht with hmem | hmem
          · exact htr t hmem
          · exact htrace t hmem

/-- Under fail-closed, a provider-loop outcome with decision allow has no
Go-level error and only error-free trace entries. -/
theorem providerLoop_failClosed (req : Request) :
    ∀ (cands : List (Policy × Int)) (tr : List TraceItem) (w : Option Policy),
      (∀ t ∈ tr, t.error = "") →
      (providerLoop true req cands tr w).decision = "allow" →
      (providerLoop true req cands tr w).err = none
        ∧ ∀ t ∈ (providerLoop true req cands tr w).trace, t.error = "" := by
  intro cands
  induction cands with
  | nil =>
    intro tr w htr _
    cases w with
    | none => exact ⟨rfl, htr⟩
    | some wp => exact ⟨rfl, htr⟩
  | cons c rest ih =>
    intro tr w htr hal
    have herr := (evaluatePolicy_failClosed_spec c.1 req).1
    by_cases hres : (evaluatePolicy true c.1 req).result = "deny"
    · simp [providerLoop, herr, hres] at hal
    · have htrace := (evaluatePolicy_failClosed_spec c.1 req).2.resolve_left hres
      have htr2 : ∀ t ∈ tr ++ (evaluatePolicy true c.1 req).trace, t.error = "" := by
        intro t ht
        rcases List.mem_append.mp ht with hmem | hmem
        · exact htr t hmem
        · exact htrace t hmem
      by_cases hresa : (evaluatePolicy true c.1 req).result = "allow"
      · simp only [providerLoop, herr, Option.isSome_none, Bool.false_eq_true, if_false,
                   if_neg hres, if_pos hresa] at hal ⊢
        exact ih _ _ htr2 hal
      · simp only [providerLoop, herr, Option.isSome_none, Bool.false_eq_true, if_false,
                   if_neg hres, if_neg hresa] at hal ⊢
        exact ih _ _ htr2 hal

/-- C3: with fail_closed = true, no internal error yields allow — an allow
decision implies the run was error-free: the returned error is nil and every
trace entry is free of compile, runtime, non-boolean and store errors (every
error path produces a deny instead). -/
theorem c3_fail_closed_allow_is_error_free (e : EvalEngine) (req : Request) (d : Decision)
    (hfc : e.failClosed = true) (hev : evaluate e req = some d)
    (hal : d.decision = "allow") :
    d.err = none ∧ ∀ t ∈ d.trace, t.error = "" := by
  unfold evaluate at hev
  rw [hfc] at hev
  split at hev
  · simp at hev
    rw [← hev] at hal
    simp at hal
  · rename_i gps hg
    split at hev
    · simp at hev
    · rename_i d0 hl
      simp at hev
      have hdeny := globalLoop_failClosed_done req gps [] d0 hl
      rw [hev] at hdeny
      rw [hdeny] at hal
      simp at hal
    · rename_i tr hl
      have htr : ∀ t ∈ tr, t.error = "" :=
        globalLoop_failClosed_next req gps [] tr (by simp) hl
      by_cases hp : determineProvider req = ""
      · rw [if_pos hp] at hev
        simp at hev
        rw [← hev] at hal
        simp at hal
      · rw [if_neg hp] at hev
        split at hev
        · simp at hev
          rw [← hev] at hal
          simp at hal
        · rename_i pps hlp
          split at hev
          · simp at hev
          · rename_i cands hc
            simp at hev
            subst hev
            exact providerLoop_failClosed req (sortCands cands) tr none htr hal

/-- Witness for C3: a concrete fail-closed allow run, with the error-free
conclusion instantiated. -/
theorem c3_witness :
    c3Engine.failClosed = true ∧ evaluate c3Engine c3Req = some c3Decision
    ∧ c3Decision.decision = "allow"
    ∧ (c3Decision.err = none ∧ ∀ t ∈ c3Decision.trace, t.error = "") :=
  ⟨rfl, rfl, rfl, c3_fail_closed_allow_is_error_free c3Engine c3Req c3Decision rfl rfl rfl⟩

/-- C4 (amended): with fail_closed = false, a predicate compile error or
runtime error does not skip the policy — evaluation terminates immediately
with decision allow, no matched policy, a fail-open reason, and the error
noted in the trace; a non-boolean return notes fail-open in the trace and
continues, but its result is treated as allow, making the erroring policy
the current allow-winner candidate. -/
theorem c4_fail_open_error_terminates_with_allow :
    (∀ (p : Policy) (sp : Int) (req : Request) (cands : List (Policy × Int))
       (tr : List TraceItem) (w : Option Policy),
       engineCompiles p.expr = false →
       providerLoop false req ((p, sp) :: cands) tr w =
         { decision := "allow", matched := none,
           reason := "expression failed to compile (fail-open)",
           trace := tr ++ [{ policyId := p.id, result := none, effect := p.effect,
                             reason := "policy expression failed to compile",
                             error := "compile: " ++ compileErrMsg }],
           err := some compileErrMsg })
    ∧ (∀ (p : Policy) (sp : Int) (req : Request) (cands : List (Policy × Int))
         (tr : List TraceItem) (w : Option Policy) (msg : String),
         engineCompiles p.expr = true → evalCel req p.expr = .error msg →
         providerLoop false req ((p, sp) :: cands) tr w =
           { decision := "allow", matched := none, reason := "runtime error (fail-open)",
             trace := tr ++ [{ policyId := p.id, result := none, effect := p.effect,
                               reason := "policy evaluation runtime error",
                               error := "runtime: " ++ msg }],
             err := some msg })
    ∧ (∀ (p : Policy) (sp : Int) (req : Request) (cands : List (Policy × Int))
         (tr : List TraceItem) (w : Option Policy) (v : Value),
         engineCompiles p.expr = true → evalCel req p.expr = .ok v → isBoolValue v = false →
         providerLoop false req ((p, sp) :: cands) tr w =
           providerLoop false req cands
             (tr ++ [{ policyId := p.id, result := none, effect := p.effect,
                       reason := "policy expression did not return boolean",
                       error := "non-boolean result" }])
             (some p)) := by
  refine ⟨?_, ?_, ?_⟩
  · intro p sp req cands tr w h
    simp [providerLoop, evaluatePolicy, compileOrGet, h]
  · intro p sp req cands tr w msg h1 h2
    simp [providerLoop, evaluatePolicy, compileOrGet, h1, h2]
  · intro p sp req cands tr w v h1 h2 h3
    cases v with
    | bool b => simp [isBoolValue] at h3
    | str s => simp [providerLoop, evaluatePolicy, compileOrGet, h1, h2]
    | vmap m => simp [providerLoop, evaluatePolicy, compileOrGet, h1, h2]

/-- Witness for C4 at concrete fail-open candidates: a compile-error policy,
a runtime-error policy (missing subject key), and a non-boolean policy
(string-typed `resource`). -/
theorem c4_witness :
    providerLoop false c4Req [(c4Policy1, 0)] [] none =
      { decision := "allow", matched := none,
        reason := "expression failed to compile (fail-open)",
        trace := [{ policyId := "p1", result := none, effect := "allow",
                    reason := "policy expression failed to compile",
                    error := "compile: " ++ compileErrMsg }],
        err := some compileErrMsg }
    ∧ providerLoop false c4Req [(c4RuntimePolicy, 0)] [] none =
      { decision := "allow", matched := none, reason := "runtime error (fail-open)",
        trace := [{ policyId := "pr", result := none, effect := "allow",
                    reason := "policy evaluation runtime error",
                    error := "runtime: " ++ "no such key: role" }],
        err := some "no such key: role" }
    ∧ providerLoop false c4Req [(c4NonBoolPolicy, 0)] [] none =
      providerLoop false c4Req []
        [{ policyId := "pn", result := none, effect := "allow",
           reason := "policy expression did not return boolean",
           error := "non-boolean result" }]
        (some c4NonBoolPolicy) :=
  ⟨c4_fail_open_error_terminates_with_allow.1 c4Policy1 0 c4Req [] [] none rfl,
   c4_fail_open_error_terminates_with_allow.2.1 c4RuntimePolicy 0 c4Req [] [] none
     "no such key: role" rfl rfl,
   c4_fail_open_error_terminates_with_allow.2.2 c4NonBoolPolicy 0 c4Req [] [] none
     (.str "r") rfl rfl rfl⟩

/-- On a well-formed (or shortcut) pattern, `resourceMatch` cannot panic. -/
theorem resourceMatch_total (pattern value : String) (h : globPatternOk pattern = true) :
    (resourceMatch pattern value).isSome = true := by
  unfold globPatternOk at h
  unfold resourceMatch
  by_cases h1 : pattern = "" ∨ pattern = "*"
  · simp [h1]
  · push_neg at h1
    have hwf : globWellFormed pattern = true := by
      simpa [h1.1, h1.2] using h
    rw [if_neg (not_or.mpr ⟨h1.1, h1.2⟩), hwf]
    simp

/-- The global loop cannot panic when every scanned pattern is fine. -/
theorem globalLoop_total (fc : Bool) (req : Request) :
    ∀ (ps : List Policy) (tr : List TraceItem),
      (∀ p ∈ ps, globPatternOk p.resource = true) →
      (globalLoop fc req ps tr).isSome = true := by
  intro ps
  induction ps with
  | nil => intro tr _; simp [globalLoop]
  | cons p rest ih =>
    intro tr h
    have hm := resourceMatch_total p.resource req.resource (h p (by simp))
    have hrest : ∀ q ∈ rest, globPatternOk q.resource = true := fun q hq => h q (by simp [hq])
    unfold globalLoop
    cases hrm : resourceMatch p.resource req.resource with
    | none => rw [hrm] at hm; simp at hm
    | some b =>
      cases b with
      | false => simpa using ih tr hrest
      | true =>
        by_cases he : (evaluatePolicy fc p req).err.isSome
        · simp [he]
        · by_cases hr : (evaluatePolicy fc p req).result = "deny"
          · simp [he, hr]
          · simpa [he, hr] using ih _ hrest

/-- Candidate collection cannot panic when every pattern is fine. -/
theorem collectCands_total (req : Request) :
    ∀ (ps : List Policy),
      (∀ p ∈ ps, globPatternOk p.resource = true) →
      (collectCands req ps).isSome = true := by
  intro ps
  induction ps with
  | nil => intro _; simp [collectCands]
  | cons p rest ih =>
    intro h
    have hm := resourceMatch_total p.resource req.resource (h p (by simp))
    have hrest : ∀ q ∈ rest, globPatternOk q.resource = true := fun q hq => h q (by simp [hq])
    unfold collectCands
    cases hrm : resourceMatch p.resource req.resource with
    | none => rw [hrm] at hm; simp at hm
    | some b =>
      cases b with
      | false => simpa using ih hrest
      | true =>
        have := ih hrest
        cases hc : collectCands req rest with
        | none => rw [hc] at this; simp at this
        | some l => simp [hc]

/-- Policies returned by a successful load are stored policies. -/
theorem loadPolicies_mem (db : DB) (provider action : String) (ps : List Policy)
    (h : loadPolicies db provider action = .ok ps) :
    ∀ p ∈ ps, p ∈ db.policies := by
  unfold loadPolicies at h
  cases hL : db.loadErr provider with
  | some msg => rw [hL] at h; simp at h
  | none =>
    rw [hL] at h
    simp only [Except.ok.injEq] at h
    subst h
    intro p hp
    exact List.mem_of_mem_filter hp

/-- C5 (amended): provided every stored policy's resource is the empty
pattern, `*`, or a well-formed glob, the decision procedure never panics —
every request produces a deny/allow outcome. (Without that proviso a
malformed pattern panics in `glob.MustCompile`, see the counterexample.) -/
theorem c5_no_panic_on_wellformed_patterns (e : EvalEngine) (req : Request)
    (h : ∀ p ∈ e.db.policies, globPatternOk p.resource = true) :
    (evaluate e req).isSome = true := by
  unfold evaluate
  split
  · split <;> simp
  · rename_i gps hg
    have hgsub : ∀ p ∈ gps, globPatternOk p.resource = true :=
      fun p hp => h p (loadPolicies_mem e.db "global" req.action gps hg p hp)
    have hgl := globalLoop_total e.failClosed req gps [] hgsub
    split
    · rename_i hl
      rw [hl] at hgl
      simp at hgl
    · simp
    · rename_i tr hl
      split
      · simp
      · split
        · split <;> simp
        · rename_i pps hlp
          have hpsub : ∀ p ∈ pps, globPatternOk p.resource = true :=
            fun p hp2 =>
              h p (loadPolicies_mem e.db (determineProvider req) req.action pps hlp p hp2)
          have hcc := collectCands_total req pps hpsub
          split
          · rename_i hc
            rw [hc] at hcc
            simp at hcc
          · simp

/-- Witness for C5: a store whose patterns are all well-formed produces an
outcome for a concrete request. -/
theorem c5_witness : (evaluate c5OkEngine c5Req).isSome = true :=
  c5_no_panic_on_wellformed_patterns c5OkEngine c5Req (by decide)

/-- A successful lookup in an association list survives appending. -/
theorem lookup_append_of_some {β : Type} (a : String) (l1 l2 : List (String × β)) (b : β)
    (h : l1.lookup a = some b) : (l1 ++ l2).lookup a = some b := by
  induction l1 with
  | nil => simp [List.lookup] at h
  | cons hd tl ih =>
    cases hd with
    | mk k v =>
      rw [List.cons_append]
      simp only [List.lookup] at h ⊢
      cases hak : (a == k) with
      | true => rw [hak] at h; exact h
      | false => rw [hak] at h; exact ih h

/-- Type checking is monotone under extending the environment on the right. -/
theorem typecheck_mono (env extra : List (String × CelType)) :
    ∀ (e : CelExpr) (t : CelType),
      typecheck env e = some t → typecheck (env ++ extra) e = some t := by
  intro e
  induction e with
  | litBool b => intro t h; simpa [typecheck] using h
  | litStr s => intro t h; simpa [typecheck] using h
  | varRef n =>
    intro t h
    simp only [typecheck] at h ⊢
    exact lookup_append_of_some n env extra t h
  | member e f ih =>
    intro t h
    simp only [typecheck] at h ⊢
    cases hte : typecheck env e with
    | none => rw [hte] at h; simp at h
    | some t2 =>
      rw [hte] at h
      rw [ih t2 hte]
      cases t2 <;> simp_all

/-- C6 (amended): the write-time validation environment is the engine's
seven-variable environment extended with an extra `request` variable, so it
accepts every expression the engine compiles — but not conversely: an
expression referencing `request` validates yet fails to compile in the
engine (see the counterexample). -/
theorem c6_engine_compiles_implies_validate (e : CelExpr)
    (h : engineCompiles e = true) : ValidateCEL e = true := by
  unfold engineCompiles at h
  unfold ValidateCEL validationEnv
  rcases Option.isSome_iff_exists.mp h with ⟨t, ht⟩
  rw [typecheck_mono engineEnv [("request", CelType.mapSD)] e t ht]
  rfl

/-- Witness for C6: a concrete engine-compilable expression validates. -/
theorem c6_witness :
    engineCompiles (.varRef "cloud") = true ∧ ValidateCEL (.varRef "cloud") = true :=
  ⟨rfl, c6_engine_compiles_implies_validate (.varRef "cloud") rfl⟩

/-- C7: the provider-layer scope is `req.cloud` when it is neither empty nor
the literal "none", else `req.protocol`; and when the result is empty (after
a passing global layer) the decision is deny with reason "Access denied: no
provider specified" and no matched policy. -/
theorem c7_provider_determination :
    (∀ req : Request,
      determineProvider req =
        if req.cloud ≠ "" ∧ req.cloud ≠ "none" then req.cloud else req.protocol)
    ∧ ∀ (e : EvalEngine) (req : Request) (gps : List Policy) (tr : List TraceItem),
        loadPolicies e.db "global" req.action = .ok gps →
        globalLoop e.failClosed req gps [] = some (.next tr) →
        determineProvider req = "" →
        evaluate e req =
          some { decision := "deny", matched := none,
                 reason := "Access denied: no provider specified", trace := tr, err := none } := by
  constructor
  · intro req
    unfold determineProvider
    by_cases h1 : req.cloud = ""
    · simp [h1]
    · by_cases h2 : req.cloud = "none" <;> simp [h1, h2]
  · intro e req gps tr h1 h2 h3
    unfold evaluate
    rw [h1]
    simp only []
    rw [h2]
    simp [h3]

/-- Witness for C7: cloud "none" with empty protocol yields the no-provider
deny on an empty store. -/
theorem c7_witness :
    evaluate c7Engine c7Req =
      some { decision := "deny", matched := none,
             reason := "Access denied: no provider specified", trace := [], err := none } :=
  c7_provider_determination.2 c7Engine c7Req [] [] rfl rfl rfl

/-- C10: a candidate whose effect is neither "allow" nor "deny" leaves no
trace entry when its predicate is true (and is invisible to the provider
loop), while a false predicate still records a non-match trace entry. -/
theorem c10_unknown_effect_silent (fc : Bool) (p : Policy) (req : Request)
    (hd : ¬ p.effect = "deny") (ha : ¬ p.effect = "allow") :
    (engineCompiles p.expr = true → evalCel req p.expr = .ok (.bool true) →
      evaluatePolicy fc p req =
        { result := "", matched := none, reason := "", trace := [], err := none })
    ∧ (engineCompiles p.expr = true → evalCel req p.expr = .ok (.bool false) →
      evaluatePolicy fc p req =
        { result := "", matched := none, reason := "",
          trace := [{ policyId := p.id, result := some false, effect := p.effect,
                      reason := policyNonMatchReason p, error := "" }], err := none })
    ∧ ∀ (sp : Int) (cands : List (Policy × Int)) (tr : List TraceItem) (w : Option Policy),
        engineCompiles p.expr = true → evalCel req p.expr = .ok (.bool true) →
        providerLoop fc req ((p, sp) :: cands) tr w = providerLoop fc req cands tr w := by
  refine ⟨?_, ?_, ?_⟩
  · intro h1 h2
    simp [evaluatePolicy, compileOrGet, h1, h2, hd, ha]
  · intro h1 h2
    simp [evaluatePolicy, compileOrGet, h1, h2]
  · intro sp cands tr w h1 h2
    simp [providerLoop, evaluatePolicy, compileOrGet, h1, h2, hd, ha]

/-- Witness for C10: a concrete effect-"audit" policy with a true predicate
produces no trace entry and does not disturb the provider loop. -/
theorem c10_witness :
    evaluatePolicy true c10Policy c10Req =
      { result := "", matched := none, reason := "", trace := [], err := none }
    ∧ providerLoop true c10Req [(c10Policy, -9)] [] none =
      providerLoop true c10Req [] [] none :=
  ⟨(c10_unknown_effect_silent true c10Policy c10Req (by decide) (by decide)).1 rfl rfl,
   (c10_unknown_effect_silent true c10Policy c10Req (by decide) (by decide)).2.2
     (-9) [] [] none rfl rfl⟩

end PolicyEngine
